import Mathlib

/-!
Verification of the `epd7in5bc_v3` driver (`src/epd7in5bc_v3/mod.rs`) of the
`epd-waveshare` repository: the Waveshare 7.5" V3 tri-color e-ink panel driver.

The driver is embedded shallowly as trace-producing functions: every call the
driver makes on its Command Channel (the `DisplayInterface`, an external
collaborator) is recorded as an `Event`.  The busy line is an environment
function `busy : Nat → Bool` giving the result of each successive
`is_busy(IS_BUSY_LOW)` poll; the unbounded busy-wait loop is totalized with a
fuel parameter, `none` meaning the loop has not yet terminated within `fuel`
polls (the real loop has no bound at all).  The SPI transport is modelled on
its success path: the driver never inspects a transport error, it only
propagates it and aborts, so the issued-trace claims are about successful runs.
-/

namespace Epd7in5bc

/-- Modelled from the spec: the repository's `TriColor` type (module `color`,
not under `src/`) — the logical color of a two-color-plus-accent panel:
achromatic black or white, plus the chromatic accent color. -/
inductive TriColor
  | Black
  | White
  | Chromatic
  deriving DecidableEq

/-- The panel command opcodes the driver source references.  The `Command`
enumeration lives in the repository's `command_v3` module (not under `src/`);
the driver source under `src/` names exactly these variants. -/
inductive Command
  | PanelSetting
  | PowerSetting
  | PowerOff
  | PowerOn
  | DeepSleep
  | DataStartTransmissionBlackWhite
  | DisplayRefresh
  | DataStartTransmissionChromatic
  | DualSpi
  | TconSetting
  | TconResolution
  | GateSourceStart
  | Revision
  | VcomAndDataIntervalSetting
  deriving DecidableEq

/-- One call from the driver to its Command Channel or delay provider, the
embedding boundary: a reset pulse, an opcode byte, a burst of data bytes, a
repeated-byte burst (`data_x_times`), or a requested delay in milliseconds. -/
inductive Event
  | reset (pulseMs : Nat)
  | cmd (c : Command)
  | data (bytes : List Nat)
  | dataRepeat (val : Nat) (count : Nat)
  | delayMs (ms : Nat)
  deriving DecidableEq

/-- Modelled from the spec: the data bytes an event puts on the wire.  §4.1:
`send_data(bytes)` writes all bytes; `repeat_byte(value, count)`
(`DisplayInterface::data_x_times`, not under `src/`) writes the same byte
`count` times; commands, resets and delays write no data bytes. -/
def Event.wireBytes : Event → List Nat
  | Event.data bs => bs
  | Event.dataRepeat v n => List.replicate n v
  | _ => []

/-- Whether an event carries frame-data bytes (a data burst or repeated-byte
burst), as opposed to an opcode, reset pulse or delay. -/
def Event.isFrameData : Event → Bool
  | Event.data _ => true
  | Event.dataRepeat _ _ => true
  | _ => false

/-- Width of epd7in5bc_v3 in pixels (`pub const WIDTH: u32 = 800`). -/
def WIDTH : Nat := 800

/-- Height of epd7in5bc_v3 in pixels (`pub const HEIGHT: u32 = 480`). -/
def HEIGHT : Nat := 480

/-- Default background color (`pub const DEFAULT_BACKGROUND_COLOR`). -/
def DEFAULT_BACKGROUND_COLOR : TriColor := TriColor.White

/-- `const IS_BUSY_LOW: bool = true` — this variant reports busy as logic-low. -/
def IS_BUSY_LOW : Bool := true

/-- `const NUM_DISPLAY_BITS: u32 = WIDTH * HEIGHT / 8`. -/
def NUM_DISPLAY_BITS : Nat := WIDTH * HEIGHT / 8

/-- The driver state: the `Epd7in5bc` struct's own field beyond the interface
is the stored background `color`. -/
structure Epd where
  color : TriColor
  deriving DecidableEq

/-- Trace of `self.command(spi, c)` = `interface.cmd(spi, c)`. -/
def command (c : Command) : List Event := [Event.cmd c]

/-- Trace of `self.send_data(spi, d)` = `interface.data(spi, d)`. -/
def send_data (d : List Nat) : List Event := [Event.data d]

/-- Trace of `self.command_with_data(spi, c, d)` =
`interface.cmd_with_data(spi, c, d)`.  Modelled from the spec, §4.1:
`send_command_with_data(opcode, bytes)` is `send_command` immediately followed
by `send_data` (the `DisplayInterface` implementation is not under `src/`). -/
def command_with_data (c : Command) (d : List Nat) : List Event :=
  command c ++ send_data d

/-- Trace of `interface.data_x_times(spi, v, n)`: one repeated-byte burst. -/
def data_x_times (v : Nat) (n : Nat) : List Event := [Event.dataRepeat v n]

/-- Trace of `interface.reset(delay, p)`: one reset pulse. -/
def reset_pulse (p : Nat) : List Event := [Event.reset p]

/-- Trace of `delay.delay_ms(n)`: one requested delay. -/
def delay_ms (n : Nat) : List Event := [Event.delayMs n]

/-- Modelled from the spec: `DisplayInterface::is_busy(is_busy_low)` (not
under `src/`) — §4.1: the raw busy-line level is interpreted according to the
panel's busy polarity; with "busy means low" a low raw level reports busy.
`rawLevelHigh` is the raw line level, `true` meaning logic-high. -/
def interface_is_busy (busyIsLow : Bool) (rawLevelHigh : Bool) : Bool :=
  if busyIsLow then !rawLevelHigh else rawLevelHigh

/-- `fn wait_until_idle`: `while interface.is_busy(IS_BUSY_LOW) {
interface.cmd(spi, Command::Revision)?; delay.delay_ms(20); }`.  `busy k` is
the result of the `k`-th busy poll; `fuel` bounds the number of loop checks in
this totalization (`none` = the loop has not returned within `fuel` checks).
On success, returns the emitted trace and the next unconsumed poll index. -/
def wait_until_idle (busy : Nat → Bool) : Nat → Nat → Option (List Event × Nat)
  | 0, _ => none
  | fuel + 1, k =>
    if busy k then
      match wait_until_idle busy fuel (k + 1) with
      | none => none
      | some (w, k') => some (command Command.Revision ++ delay_ms 20 ++ w, k')
    else
      some ([], k + 1)

/-- The trace of `n` busy-poll iterations: `n` times a `Revision` status-query
command each followed by the fixed 20 ms inter-poll delay. -/
def pollTrace : Nat → List Event
  | 0 => []
  | n + 1 => command Command.Revision ++ delay_ms 20 ++ pollTrace n

/-- `InternalWiAdditions::init`: reset pulse, `PowerSetting`, `PowerOn`, one
busy-wait, then `PanelSetting`, `TconResolution`, `DualSpi`,
`VcomAndDataIntervalSetting`, `TconSetting`, `GateSourceStart`, transcribed
from the source in order with its parameter bytes. -/
def init (e : Epd) (busy : Nat → Bool) (fuel k : Nat) :
    Option (List Event × Nat × Epd) :=
  match wait_until_idle busy fuel k with
  | none => none
  | some (w, k1) =>
    some (reset_pulse 2 ++
        command_with_data Command.PowerSetting [0x07, 0x07, 0x3F, 0x3F] ++
        command Command.PowerOn ++
        w ++
        command_with_data Command.PanelSetting [0x0F] ++
        command_with_data Command.TconResolution [0x03, 0x20, 0x01, 0xE0] ++
        command_with_data Command.DualSpi [0x00] ++
        command_with_data Command.VcomAndDataIntervalSetting [0x11, 0x07] ++
        command_with_data Command.TconSetting [0x22] ++
        command_with_data Command.GateSourceStart [0x00, 0x00, 0x00, 0x00],
      k1, e)

/-- `WaveshareDisplay::new`: builds the struct with
`DEFAULT_BACKGROUND_COLOR` and runs `init`. -/
def new (busy : Nat → Bool) (fuel k : Nat) : Option (List Event × Nat × Epd) :=
  init { color := DEFAULT_BACKGROUND_COLOR } busy fuel k

/-- `WaveshareDisplay::wake_up`: the source body is exactly
`self.init(spi, delay)`. -/
def wake_up (e : Epd) (busy : Nat → Bool) (fuel k : Nat) :
    Option (List Event × Nat × Epd) :=
  init e busy fuel k

/-- `WaveshareDisplay::sleep`: `PowerOff`, busy-wait, `DeepSleep` with the
fixed byte `0xA5` (the idle-wait before `PowerOff` is commented out in the
source). -/
def sleep (e : Epd) (busy : Nat → Bool) (fuel k : Nat) :
    Option (List Event × Nat × Epd) :=
  match wait_until_idle busy fuel k with
  | none => none
  | some (w, k1) =>
    some (command Command.PowerOff ++ w ++
        command_with_data Command.DeepSleep [0xA5],
      k1, e)

/-- `WaveshareDisplay::update_frame`: busy-wait, the caller's buffer after
`DataStartTransmissionBlackWhite`, then `DataStartTransmissionChromatic`
followed by `data_x_times(0x00, WIDTH * HEIGHT / 8)`, then a second
busy-wait. -/
def update_frame (e : Epd) (busy : Nat → Bool) (fuel k : Nat)
    (buffer : List Nat) : Option (List Event × Nat × Epd) :=
  match wait_until_idle busy fuel k with
  | none => none
  | some (w1, k1) =>
    match wait_until_idle busy fuel k1 with
    | none => none
    | some (w2, k2) =>
      some (w1 ++
          command_with_data Command.DataStartTransmissionBlackWhite buffer ++
          command Command.DataStartTransmissionChromatic ++
          data_x_times 0x00 (WIDTH * HEIGHT / 8) ++
          w2,
        k2, e)

/-- `WaveshareThreeColorDisplay::update_achromatic_frame`. -/
def update_achromatic_frame (e : Epd) (black : List Nat) : List Event × Epd :=
  (command_with_data Command.DataStartTransmissionBlackWhite black, e)

/-- `WaveshareThreeColorDisplay::update_chromatic_frame`. -/
def update_chromatic_frame (e : Epd) (chromatic : List Nat) :
    List Event × Epd :=
  (command_with_data Command.DataStartTransmissionChromatic chromatic, e)

/-- `WaveshareThreeColorDisplay::update_color_frame`: achromatic plane then
chromatic plane. -/
def update_color_frame (e : Epd) (black chromatic : List Nat) :
    List Event × Epd :=
  let a := update_achromatic_frame e black
  let c := update_chromatic_frame a.2 chromatic
  (a.1 ++ c.1, c.2)

/-- `WaveshareDisplay::display_frame`: `DisplayRefresh`, an unconditional
`delay_ms(100)`, then the busy-wait. -/
def display_frame (e : Epd) (busy : Nat → Bool) (fuel k : Nat) :
    Option (List Event × Nat × Epd) :=
  match wait_until_idle busy fuel k with
  | none => none
  | some (w, k1) =>
    some (command Command.DisplayRefresh ++ delay_ms 100 ++ w, k1, e)

/-- `WaveshareDisplay::update_and_display_frame`: `update_frame` then
`display_frame`. -/
def update_and_display_frame (e : Epd) (busy : Nat → Bool) (fuel k : Nat)
    (buffer : List Nat) : Option (List Event × Nat × Epd) :=
  match update_frame e busy fuel k buffer with
  | none => none
  | some (tr1, k1, e1) =>
    match display_frame e1 busy fuel k1 with
    | none => none
    | some (tr2, k2, e2) => some (tr1 ++ tr2, k2, e2)

/-- `WaveshareDisplay::clear_frame`: busy-wait, `0xFF` fill of the achromatic
plane, `0x00` fill of the chromatic plane, `DisplayRefresh`, and return. -/
def clear_frame (e : Epd) (busy : Nat → Bool) (fuel k : Nat) :
    Option (List Event × Nat × Epd) :=
  match wait_until_idle busy fuel k with
  | none => none
  | some (w, k1) =>
    some (w ++
        command Command.DataStartTransmissionBlackWhite ++
        data_x_times 0xFF (WIDTH * HEIGHT / 8) ++
        command Command.DataStartTransmissionChromatic ++
        data_x_times 0x00 (WIDTH * HEIGHT / 8) ++
        command Command.DisplayRefresh,
      k1, e)

/-- `WaveshareDisplay::set_background_color`. -/
def set_background_color (e : Epd) (color : TriColor) : Epd :=
  { e with color := color }

/-- `WaveshareDisplay::background_color`. -/
def background_color (e : Epd) : TriColor := e.color

/-- `WaveshareDisplay::width`. -/
def width (_e : Epd) : Nat := WIDTH

/-- `WaveshareDisplay::height`. -/
def height (_e : Epd) : Nat := HEIGHT

/-- The driver's failure signal for operations this panel revision does not
support; models the fatal `unimplemented!()` panic. -/
inductive DriverError
  | unsupported
  deriving DecidableEq

/-- `WaveshareDisplay::update_partial_frame`: body is `unimplemented!()` —
fatal, with no transport call issued. -/
def update_partial_frame (_e : Epd) (_buffer : List Nat)
    (_x _y _width _height : Nat) : List Event × Except DriverError Unit :=
  ([], Except.error DriverError.unsupported)

/-- `WaveshareDisplay::set_lut`: body is `unimplemented!()` — fatal, with no
transport call issued.  `α` stands for the repository's `RefreshLut` type. -/
def set_lut {α : Type} (_e : Epd) (_refresh_rate : Option α) :
    List Event × Except DriverError Unit :=
  ([], Except.error DriverError.unsupported)

/-- `WaveshareDisplay::is_busy`: `interface.is_busy(IS_BUSY_LOW)` — a pure
read of the raw busy-line level, returning the interpreted flag and (second
component) the transport calls made: none. -/
def is_busy (_e : Epd) (rawLevelHigh : Bool) : Bool × List Event :=
  (interface_is_busy IS_BUSY_LOW rawLevelHigh, [])

/-!  Characterization of the busy-wait loop.  -/

/-- Every successful run of `wait_until_idle` emits `pollTrace n` for the
number `n` of busy polls before the first idle report, consumes `n + 1` busy
reads, and respects the fuel bound. -/
lemma wait_until_idle_some (busy : Nat → Bool) :
    ∀ (fuel k : Nat) (w : List Event) (k' : Nat),
      wait_until_idle busy fuel k = some (w, k') →
      ∃ n, w = pollTrace n ∧ k' = k + n + 1 ∧
        (∀ m, m < n → busy (k + m) = true) ∧ busy (k + n) = false ∧
        n < fuel := by
  intro fuel
  induction fuel with
  | zero =>
    intro k w k' h
    simp [wait_until_idle] at h
  | succ f ih =>
    intro k w k' h
    cases hb : busy k with
    | false =>
      simp [wait_until_idle, hb] at h
      obtain ⟨hw, hk⟩ := h
      refine ⟨0, ?_, ?_, ?_, ?_, ?_⟩
      · rw [hw]; rfl
      · omega
      · intro m hm; exact absurd hm (Nat.not_lt_zero m)
      · simpa using hb
      · omega
    | true =>
      cases hr : wait_until_idle busy f (k + 1) with
      | none => simp [wait_until_idle, hb, hr] at h
      | some p =>
        obtain ⟨w0, k0⟩ := p
        simp [wait_until_idle, hb, hr] at h
        obtain ⟨hw, hk⟩ := h
        obtain ⟨n, hn, hk0, hbusy, hidle, hlt⟩ := ih (k + 1) w0 k0 hr
        refine ⟨n + 1, ?_, ?_, ?_, ?_, ?_⟩
        · rw [← hw, hn]; rfl
        · omega
        · intro m hm
          cases m with
          | zero => simpa using hb
          | succ m' =>
            have h1 := hbusy m' (by omega)
            have h2 : k + 1 + m' = k + (m' + 1) := by omega
            rw [h2] at h1
            exact h1
        · have h2 : k + 1 + n = k + (n + 1) := by omega
          rw [h2] at hidle
          exact hidle
        · omega

/-- Converse direction: with `n` busy reports followed by an idle report, and
fuel above `n`, `wait_until_idle` returns exactly `n` poll iterations and
consumes `n + 1` busy reads. -/
lemma wait_until_idle_eq (busy : Nat → Bool) :
    ∀ (n fuel k : Nat), (∀ m, m < n → busy (k + m) = true) →
      busy (k + n) = false → n < fuel →
      wait_until_idle busy fuel k = some (pollTrace n, k + n + 1) := by
  intro n
  induction n with
  | zero =>
    intro fuel k _ hidle hfuel
    cases fuel with
    | zero => exact absurd hfuel (by omega)
    | succ f =>
      have hb : busy k = false := by simpa using hidle
      simp [wait_until_idle, hb, pollTrace]
  | succ n ih =>
    intro fuel k hbusy hidle hfuel
    cases fuel with
    | zero => exact absurd hfuel (by omega)
    | succ f =>
      have hb : busy k = true := hbusy 0 (by omega)
      have hrec : wait_until_idle busy f (k + 1) =
          some (pollTrace n, k + 1 + n + 1) := by
        refine ih f (k + 1) ?_ ?_ (by omega)
        · intro m hm
          have h1 := hbusy (m + 1) (by omega)
          have h2 : k + (m + 1) = k + 1 + m := by omega
          rw [h2] at h1
          exact h1
        · have h2 : k + (n + 1) = k + 1 + n := by omega
          rw [h2] at hidle
          exact hidle
      simp [wait_until_idle, hb, hrec, pollTrace]
      omega

/-- If the busy line never clears, the loop does not return within any fuel
bound: the totalization yields `none` at every fuel. -/
lemma wait_until_idle_none (busy : Nat → Bool) (hb : ∀ m, busy m = true) :
    ∀ (fuel k : Nat), wait_until_idle busy fuel k = none := by
  intro fuel
  induction fuel with
  | zero => intro k; rfl
  | succ f ih => intro k; simp [wait_until_idle, hb k, ih (k + 1)]

/-- Every event of a poll trace is a `Revision` status query or the fixed
20 ms inter-poll delay. -/
lemma mem_pollTrace {ev : Event} :
    ∀ {n : Nat}, ev ∈ pollTrace n →
      ev = Event.cmd Command.Revision ∨ ev = Event.delayMs 20 := by
  intro n
  induction n with
  | zero => intro h; simp [pollTrace] at h
  | succ m ih =>
    intro h
    simp [pollTrace, command, delay_ms] at h
    rcases h with h | h | h
    · exact Or.inl h
    · exact Or.inr h
    · exact ih h

/-- The plane size `WIDTH * HEIGHT / 8` is 48000 bytes. -/
lemma num_display_bits_eq : WIDTH * HEIGHT / 8 = 48000 := by
  norm_num [WIDTH, HEIGHT]

/-!  Claim theorems.  -/

/-- Claim C1: for every transport behavior and driver state, a successful
`init` issues exactly, in order: a reset pulse; `PowerSetting` with parameter
bytes 07 07 3F 3F; `PowerOn`; exactly one busy-wait; `PanelSetting` with 0F;
`TconResolution` with 03 20 01 E0; `DualSpi` with 00;
`VcomAndDataIntervalSetting` with 11 07; `TconSetting` with 22;
`GateSourceStart` with 00 00 00 00 — and no other commands or data bytes. -/
theorem init_trace (e : Epd) (busy : Nat → Bool) (fuel k : Nat)
    (tr : List Event) (k' : Nat) (e' : Epd)
    (h : init e busy fuel k = some (tr, k', e')) :
    ∃ n, tr =
      [Event.reset 2,
       Event.cmd Command.PowerSetting, Event.data [0x07, 0x07, 0x3F, 0x3F],
       Event.cmd Command.PowerOn] ++
      pollTrace n ++
      [Event.cmd Command.PanelSetting, Event.data [0x0F],
       Event.cmd Command.TconResolution, Event.data [0x03, 0x20, 0x01, 0xE0],
       Event.cmd Command.DualSpi, Event.data [0x00],
       Event.cmd Command.VcomAndDataIntervalSetting, Event.data [0x11, 0x07],
       Event.cmd Command.TconSetting, Event.data [0x22],
       Event.cmd Command.GateSourceStart,
       Event.data [0x00, 0x00, 0x00, 0x00]] := by
  cases hw : wait_until_idle busy fuel k with
  | none => simp [init, hw] at h
  | some p =>
    obtain ⟨w, k1⟩ := p
    simp [init, hw] at h
    obtain ⟨htr, _, _⟩ := h
    obtain ⟨n, hn, -, -, -, -⟩ := wait_until_idle_some busy fuel k w k1 hw
    refine ⟨n, ?_⟩
    rw [← htr, hn]
    simp [reset_pulse, command, command_with_data, send_data]

/-- Witness for C1 at a transport that is idle at once (`fuel` 1): the
busy-wait contributes zero poll iterations. -/
theorem init_trace_witness :
    ∃ n,
      ([Event.reset 2,
        Event.cmd Command.PowerSetting, Event.data [0x07, 0x07, 0x3F, 0x3F],
        Event.cmd Command.PowerOn,
        Event.cmd Command.PanelSetting, Event.data [0x0F],
        Event.cmd Command.TconResolution, Event.data [0x03, 0x20, 0x01, 0xE0],
        Event.cmd Command.DualSpi, Event.data [0x00],
        Event.cmd Command.VcomAndDataIntervalSetting, Event.data [0x11, 0x07],
        Event.cmd Command.TconSetting, Event.data [0x22],
        Event.cmd Command.GateSourceStart,
        Event.data [0x00, 0x00, 0x00, 0x00]] : List Event) =
      [Event.reset 2,
       Event.cmd Command.PowerSetting, Event.data [0x07, 0x07, 0x3F, 0x3F],
       Event.cmd Command.PowerOn] ++
      pollTrace n ++
      [Event.cmd Command.PanelSetting, Event.data [0x0F],
       Event.cmd Command.TconResolution, Event.data [0x03, 0x20, 0x01, 0xE0],
       Event.cmd Command.DualSpi, Event.data [0x00],
       Event.cmd Command.VcomAndDataIntervalSetting, Event.data [0x11, 0x07],
       Event.cmd Command.TconSetting, Event.data [0x22],
       Event.cmd Command.GateSourceStart,
       Event.data [0x00, 0x00, 0x00, 0x00]] :=
  init_trace { color := TriColor.White } (fun _ => false) 1 0 _ 1
    { color := TriColor.White } (by decide)

/-- Claim C7: `wake_up` is extensionally equal to `init` — same trace, same
consumed busy reads, same resulting state, for every input. -/
theorem wake_up_eq_init (e : Epd) (busy : Nat → Bool) (fuel k : Nat) :
    wake_up e busy fuel k = init e busy fuel k := rfl

/-- Claim C8: `is_busy` has the fixed busy-low polarity of this variant — a
logic-low raw level reports busy, a logic-high raw level reports idle — and
makes no transport call. -/
theorem is_busy_polarity :
    (∀ e : Epd, (is_busy e false).1 = true) ∧
    (∀ e : Epd, (is_busy e true).1 = false) ∧
    (∀ (e : Epd) (level : Bool), (is_busy e level).2 = ([] : List Event)) :=
  ⟨fun _ => rfl, fun _ => rfl, fun _ _ => rfl⟩

/-- Claim C4: `update_partial_frame` and `set_lut` always fail with the
`unsupported` signal and issue no transport call at all (empty trace). -/
theorem unsupported_ops_fail {α : Type} (e1 e2 : Epd) (buffer : List Nat)
    (x y w h : Nat) (r : Option α) :
    update_partial_frame e1 buffer x y w h =
      ([], Except.error DriverError.unsupported) ∧
    set_lut e2 r = ([], Except.error DriverError.unsupported) :=
  ⟨rfl, rfl⟩

/-- Claim C9: with busy reported for exactly the first `n` polls and idle
thereafter, `wait_until_idle` issues exactly `n` `Revision` status queries,
each followed by the fixed 20 ms delay, then returns (`n = 0` gives zero
queries); and with a line that never reports idle, the loop never returns
within any fuel bound. -/
theorem wait_until_idle_spec :
    (∀ (busy : Nat → Bool) (n fuel k : Nat),
      (∀ m, m < n → busy (k + m) = true) → busy (k + n) = false → n < fuel →
      wait_until_idle busy fuel k = some (pollTrace n, k + n + 1)) ∧
    (∀ (fuel k : Nat), wait_until_idle (fun _ => true) fuel k = none) :=
  ⟨fun busy n fuel k h1 h2 h3 => wait_until_idle_eq busy n fuel k h1 h2 h3,
   fun fuel k => wait_until_idle_none (fun _ => true) (fun _ => rfl) fuel k⟩

/-- Witness for C9: three busy polls then idle gives exactly three poll
iterations; an always-busy line gives `none` at fuel 5. -/
theorem wait_until_idle_spec_witness :
    wait_until_idle (fun i => decide (i < 3)) 5 0 = some (pollTrace 3, 4) ∧
    wait_until_idle (fun _ => true) 5 0 = none :=
  ⟨wait_until_idle_spec.1 (fun i => decide (i < 3)) 3 5 0 (by decide)
      (by decide) (by decide),
   wait_until_idle_spec.2 5 0⟩

/-- Claim C2: a successful `update_frame` first busy-waits, transmits the
caller's buffer byte-identical after the `DataStartTransmissionBlackWhite`
opcode, then exactly `WIDTH * HEIGHT / 8 = 48000` zero bytes after the
`DataStartTransmissionChromatic` opcode, busy-waits again, and never issues
the `DisplayRefresh` opcode. -/
theorem update_frame_trace (e : Epd) (busy : Nat → Bool) (fuel k : Nat)
    (buffer : List Nat) (tr : List Event) (k' : Nat) (e' : Epd)
    (h : update_frame e busy fuel k buffer = some (tr, k', e')) :
    (∃ n1 n2, tr =
      pollTrace n1 ++
      [Event.cmd Command.DataStartTransmissionBlackWhite, Event.data buffer,
       Event.cmd Command.DataStartTransmissionChromatic,
       Event.dataRepeat 0x00 (WIDTH * HEIGHT / 8)] ++
      pollTrace n2) ∧
    Event.wireBytes (Event.dataRepeat 0x00 (WIDTH * HEIGHT / 8)) =
      List.replicate 48000 0x00 ∧
    Event.cmd Command.DisplayRefresh ∉ tr := by
  cases hw1 : wait_until_idle busy fuel k with
  | none => simp [update_frame, hw1] at h
  | some p1 =>
    obtain ⟨w1, k1⟩ := p1
    cases hw2 : wait_until_idle busy fuel k1 with
    | none => simp [update_frame, hw1, hw2] at h
    | some p2 =>
      obtain ⟨w2, k2⟩ := p2
      simp [update_frame, hw1, hw2] at h
      obtain ⟨htr, _, _⟩ := h
      obtain ⟨n1, hn1, -, -, -, -⟩ := wait_until_idle_some busy fuel k w1 k1 hw1
      obtain ⟨n2, hn2, -, -, -, -⟩ :=
        wait_until_idle_some busy fuel k1 w2 k2 hw2
      have htr' : tr =
          pollTrace n1 ++
          [Event.cmd Command.DataStartTransmissionBlackWhite,
           Event.data buffer,
           Event.cmd Command.DataStartTransmissionChromatic,
           Event.dataRepeat 0x00 (WIDTH * HEIGHT / 8)] ++
          pollTrace n2 := by
        rw [← htr, hn1, hn2]
        simp [command, command_with_data, send_data, data_x_times]
      refine ⟨⟨n1, n2, htr'⟩, ?_, ?_⟩
      · rw [Event.wireBytes, num_display_bits_eq]
      · rw [htr']
        intro hmem
        rcases List.mem_append.mp hmem with hmem' | hmem'
        · rcases List.mem_append.mp hmem' with h1 | h1
          · rcases mem_pollTrace h1 with hc | hc <;> simp at hc
          · simp at h1
        · rcases mem_pollTrace hmem' with hc | hc <;> simp at hc

/-- Witness for C2 with an immediately idle transport and a one-byte buffer. -/
theorem update_frame_trace_witness :
    (∃ n1 n2,
      ([Event.cmd Command.DataStartTransmissionBlackWhite,
        Event.data [0xAB],
        Event.cmd Command.DataStartTransmissionChromatic,
        Event.dataRepeat 0x00 (WIDTH * HEIGHT / 8)] : List Event) =
      pollTrace n1 ++
      [Event.cmd Command.DataStartTransmissionBlackWhite, Event.data [0xAB],
       Event.cmd Command.DataStartTransmissionChromatic,
       Event.dataRepeat 0x00 (WIDTH * HEIGHT / 8)] ++
      pollTrace n2) ∧
    Event.wireBytes (Event.dataRepeat 0x00 (WIDTH * HEIGHT / 8)) =
      List.replicate 48000 0x00 ∧
    Event.cmd Command.DisplayRefresh ∉
      ([Event.cmd Command.DataStartTransmissionBlackWhite,
        Event.data [0xAB],
        Event.cmd Command.DataStartTransmissionChromatic,
        Event.dataRepeat 0x00 (WIDTH * HEIGHT / 8)] : List Event) :=
  update_frame_trace { color := TriColor.White } (fun _ => false) 1 0 [0xAB]
    _ 2 { color := TriColor.White } (by decide)

/-- Claim C3: a successful `clear_frame` transmits exactly
`WIDTH * HEIGHT / 8 = 48000` bytes of the white fill value `0xFF` after the
achromatic-plane opcode and the same count of `0x00` bytes after the
chromatic-plane opcode, issues `DisplayRefresh`, and returns with nothing
after the refresh — no settle delay and no post-refresh idle-wait. -/
theorem clear_frame_trace (e : Epd) (busy : Nat → Bool) (fuel k : Nat)
    (tr : List Event) (k' : Nat) (e' : Epd)
    (h : clear_frame e busy fuel k = some (tr, k', e')) :
    (∃ n, tr =
      pollTrace n ++
      [Event.cmd Command.DataStartTransmissionBlackWhite,
       Event.dataRepeat 0xFF (WIDTH * HEIGHT / 8),
       Event.cmd Command.DataStartTransmissionChromatic,
       Event.dataRepeat 0x00 (WIDTH * HEIGHT / 8),
       Event.cmd Command.DisplayRefresh]) ∧
    Event.wireBytes (Event.dataRepeat 0xFF (WIDTH * HEIGHT / 8)) =
      List.replicate 48000 0xFF ∧
    Event.wireBytes (Event.dataRepeat 0x00 (WIDTH * HEIGHT / 8)) =
      List.replicate 48000 0x00 ∧
    tr.getLast? = some (Event.cmd Command.DisplayRefresh) := by
  cases hw : wait_until_idle busy fuel k with
  | none => simp [clear_frame, hw] at h
  | some p =>
    obtain ⟨w, k1⟩ := p
    simp [clear_frame, hw] at h
    obtain ⟨htr, _, _⟩ := h
    obtain ⟨n, hn, -, -, -, -⟩ := wait_until_idle_some busy fuel k w k1 hw
    have htr' : tr =
        pollTrace n ++
        [Event.cmd Command.DataStartTransmissionBlackWhite,
         Event.dataRepeat 0xFF (WIDTH * HEIGHT / 8),
         Event.cmd Command.DataStartTransmissionChromatic,
         Event.dataRepeat 0x00 (WIDTH * HEIGHT / 8),
         Event.cmd Command.DisplayRefresh] := by
      rw [← htr, hn]
      simp [command, data_x_times]
    refine ⟨⟨n, htr'⟩, ?_, ?_, ?_⟩
    · rw [Event.wireBytes, num_display_bits_eq]
    · rw [Event.wireBytes, num_display_bits_eq]
    · rw [htr', List.getLast?_append_of_ne_nil _ (by simp)]
      rfl

/-- Witness for C3 with an immediately idle transport. -/
theorem clear_frame_trace_witness :
    (∃ n,
      ([Event.cmd Command.DataStartTransmissionBlackWhite,
        Event.dataRepeat 0xFF (WIDTH * HEIGHT / 8),
        Event.cmd Command.DataStartTransmissionChromatic,
        Event.dataRepeat 0x00 (WIDTH * HEIGHT / 8),
        Event.cmd Command.DisplayRefresh] : List Event) =
      pollTrace n ++
      [Event.cmd Command.DataStartTransmissionBlackWhite,
       Event.dataRepeat 0xFF (WIDTH * HEIGHT / 8),
       Event.cmd Command.DataStartTransmissionChromatic,
       Event.dataRepeat 0x00 (WIDTH * HEIGHT / 8),
       Event.cmd Command.DisplayRefresh]) ∧
    Event.wireBytes (Event.dataRepeat 0xFF (WIDTH * HEIGHT / 8)) =
      List.replicate 48000 0xFF ∧
    Event.wireBytes (Event.dataRepeat 0x00 (WIDTH * HEIGHT / 8)) =
      List.replicate 48000 0x00 ∧
    ([Event.cmd Command.DataStartTransmissionBlackWhite,
      Event.dataRepeat 0xFF (WIDTH * HEIGHT / 8),
      Event.cmd Command.DataStartTransmissionChromatic,
      Event.dataRepeat 0x00 (WIDTH * HEIGHT / 8),
      Event.cmd Command.DisplayRefresh] : List Event).getLast? =
      some (Event.cmd Command.DisplayRefresh) :=
  clear_frame_trace { color := TriColor.White } (fun _ => false) 1 0 _ 1
    { color := TriColor.White } (by decide)

/-- Claim C5: a successful `display_frame` issues the `DisplayRefresh` opcode
first, then an unconditional 100 ms delay (at least the 1 ms minimum) before
the busy-poll loop, and issues no frame-data bytes of its own. -/
theorem display_frame_trace (e : Epd) (busy : Nat → Bool) (fuel k : Nat)
    (tr : List Event) (k' : Nat) (e' : Epd)
    (h : display_frame e busy fuel k = some (tr, k', e')) :
    (∃ n, tr =
      [Event.cmd Command.DisplayRefresh, Event.delayMs 100] ++ pollTrace n) ∧
    (1 : Nat) ≤ 100 ∧
    ∀ ev ∈ tr, Event.isFrameData ev = false := by
  cases hw : wait_until_idle busy fuel k with
  | none => simp [display_frame, hw] at h
  | some p =>
    obtain ⟨w, k1⟩ := p
    simp [display_frame, hw] at h
    obtain ⟨htr, _, _⟩ := h
    obtain ⟨n, hn, -, -, -, -⟩ := wait_until_idle_some busy fuel k w k1 hw
    have htr' : tr =
        [Event.cmd Command.DisplayRefresh, Event.delayMs 100] ++
        pollTrace n := by
      rw [← htr, hn]
      simp [command, delay_ms]
    refine ⟨⟨n, htr'⟩, by omega, ?_⟩
    rw [htr']
    intro ev hmem
    simp at hmem
    rcases hmem with hmem | hmem | hmem
    · rw [hmem]; rfl
    · rw [hmem]; rfl
    · rcases mem_pollTrace hmem with hc | hc <;> rw [hc] <;> rfl

/-- Witness for C5 with an immediately idle transport. -/
theorem display_frame_trace_witness :
    (∃ n,
      ([Event.cmd Command.DisplayRefresh, Event.delayMs 100] : List Event) =
      [Event.cmd Command.DisplayRefresh, Event.delayMs 100] ++ pollTrace n) ∧
    (1 : Nat) ≤ 100 ∧
    ∀ ev ∈ ([Event.cmd Command.DisplayRefresh,
             Event.delayMs 100] : List Event),
      Event.isFrameData ev = false :=
  display_frame_trace { color := TriColor.White } (fun _ => false) 1 0 _ 1
    { color := TriColor.White } (by decide)

/-- Claim C6: a successful `sleep` issues exactly the `PowerOff` opcode, then
a busy-wait until idle, then `DeepSleep` with the single fixed parameter byte
`0xA5` — in that order and nothing else; in particular there is no idle-wait
before `PowerOff`. -/
theorem sleep_trace (e : Epd) (busy : Nat → Bool) (fuel k : Nat)
    (tr : List Event) (k' : Nat) (e' : Epd)
    (h : sleep e busy fuel k = some (tr, k', e')) :
    ∃ n, tr =
      Event.cmd Command.PowerOff ::
      (pollTrace n ++
       [Event.cmd Command.DeepSleep, Event.data [0xA5]]) := by
  cases hw : wait_until_idle busy fuel k with
  | none => simp [sleep, hw] at h
  | some p =>
    obtain ⟨w, k1⟩ := p
    simp [sleep, hw] at h
    obtain ⟨htr, _, _⟩ := h
    obtain ⟨n, hn, -, -, -, -⟩ := wait_until_idle_some busy fuel k w k1 hw
    refine ⟨n, ?_⟩
    rw [← htr, hn]
    simp [command, command_with_data, send_data]

/-- Witness for C6 with an immediately idle transport. -/
theorem sleep_trace_witness :
    ∃ n,
      ([Event.cmd Command.PowerOff,
        Event.cmd Command.DeepSleep, Event.data [0xA5]] : List Event) =
      Event.cmd Command.PowerOff ::
      (pollTrace n ++
       [Event.cmd Command.DeepSleep, Event.data [0xA5]]) :=
  sleep_trace { color := TriColor.White } (fun _ => false) 1 0 _ 1
    { color := TriColor.White } (by decide)

/-- Claim C10: the stored background color is written only by construction —
`new` yields a state whose color is `TriColor.White` — and by
`set_background_color`, whose stored value `background_color` then returns;
every state-returning operation (`init`, `wake_up`, `sleep`, `update_frame`,
`update_color_frame`, `display_frame`, `update_and_display_frame`,
`clear_frame`) leaves the stored color unchanged (`is_busy`, `width` and
`height` return no state at all in this embedding). -/
theorem background_color_frame :
    (∀ (busy : Nat → Bool) (fuel k : Nat) (tr : List Event) (k' : Nat)
      (e' : Epd), new busy fuel k = some (tr, k', e') →
        background_color e' = TriColor.White) ∧
    (∀ (e : Epd) (c : TriColor),
      background_color (set_background_color e c) = c) ∧
    (∀ (e : Epd) (busy : Nat → Bool) (fuel k : Nat) (tr : List Event)
      (k' : Nat) (e' : Epd), init e busy fuel k = some (tr, k', e') →
        background_color e' = background_color e) ∧
    (∀ (e : Epd) (busy : Nat → Bool) (fuel k : Nat) (tr : List Event)
      (k' : Nat) (e' : Epd), wake_up e busy fuel k = some (tr, k', e') →
        background_color e' = background_color e) ∧
    (∀ (e : Epd) (busy : Nat → Bool) (fuel k : Nat) (tr : List Event)
      (k' : Nat) (e' : Epd), sleep e busy fuel k = some (tr, k', e') →
        background_color e' = background_color e) ∧
    (∀ (e : Epd) (busy : Nat → Bool) (fuel k : Nat) (buffer : List Nat)
      (tr : List Event) (k' : Nat) (e' : Epd),
      update_frame e busy fuel k buffer = some (tr, k', e') →
        background_color e' = background_color e) ∧
    (∀ (e : Epd) (black chromatic : List Nat),
      background_color (update_color_frame e black chromatic).2 =
        background_color e) ∧
    (∀ (e : Epd) (busy : Nat → Bool) (fuel k : Nat) (tr : List Event)
      (k' : Nat) (e' : Epd), display_frame e busy fuel k = some (tr, k', e') →
        background_color e' = background_color e) ∧
    (∀ (e : Epd) (busy : Nat → Bool) (fuel k : Nat) (buffer : List Nat)
      (tr : List Event) (k' : Nat) (e' : Epd),
      update_and_display_frame e busy fuel k buffer = some (tr, k', e') →
        background_color e' = background_color e) ∧
    (∀ (e : Epd) (busy : Nat → Bool) (fuel k : Nat) (tr : List Event)
      (k' : Nat) (e' : Epd), clear_frame e busy fuel k = some (tr, k', e') →
        background_color e' = background_color e) := by
  have hinit : ∀ (e : Epd) (busy : Nat → Bool) (fuel k : Nat)
      (tr : List Event) (k' : Nat) (e' : Epd),
      init e busy fuel k = some (tr, k', e') → e' = e := by
    intro e busy fuel k tr k' e' h
    cases hw : wait_until_idle busy fuel k with
    | none => simp [init, hw] at h
    | some p =>
      obtain ⟨w, k1⟩ := p
      simp [init, hw] at h
      exact h.2.2.symm
  have hupd : ∀ (e : Epd) (busy : Nat → Bool) (fuel k : Nat)
      (buffer : List Nat) (tr : List Event) (k' : Nat) (e' : Epd),
      update_frame e busy fuel k buffer = some (tr, k', e') → e' = e := by
    intro e busy fuel k buffer tr k' e' h
    cases hw1 : wait_until_idle busy fuel k with
    | none => simp [update_frame, hw1] at h
    | some p1 =>
      obtain ⟨w1, k1⟩ := p1
      cases hw2 : wait_until_idle busy fuel k1 with
      | none => simp [update_frame, hw1, hw2] at h
      | some p2 =>
        obtain ⟨w2, k2⟩ := p2
        simp [update_frame, hw1, hw2] at h
        exact h.2.2.symm
  have hdisp : ∀ (e : Epd) (busy : Nat → Bool) (fuel k : Nat)
      (tr : List Event) (k' : Nat) (e' : Epd),
      display_frame e busy fuel k = some (tr, k', e') → e' = e := by
    intro e busy fuel k tr k' e' h
    cases hw : wait_until_idle busy fuel k with
    | none => simp [display_frame, hw] at h
    | some p =>
      obtain ⟨w, k1⟩ := p
      simp [display_frame, hw] at h
      exact h.2.2.symm
  refine ⟨?_, fun e c => rfl, ?_, ?_, ?_, ?_, fun e b c => rfl, ?_, ?_, ?_⟩
  · intro busy fuel k tr k' e' h
    rw [background_color, hinit _ busy fuel k tr k' e' h]
    rfl
  · intro e busy fuel k tr k' e' h
    rw [background_color, background_color, hinit e busy fuel k tr k' e' h]
  · intro e busy fuel k tr k' e' h
    rw [background_color, background_color, hinit e busy fuel k tr k' e' h]
  · intro e busy fuel k tr k' e' h
    cases hw : wait_until_idle busy fuel k with
    | none => simp [sleep, hw] at h
    | some p =>
      obtain ⟨w, k1⟩ := p
      simp [sleep, hw] at h
      rw [background_color, background_color, h.2.2.symm]
  · intro e busy fuel k buffer tr k' e' h
    rw [background_color, background_color,
      hupd e busy fuel k buffer tr k' e' h]
  · intro e busy fuel k tr k' e' h
    rw [background_color, background_color, hdisp e busy fuel k tr k' e' h]
  · intro e busy fuel k buffer tr k' e' h
    cases h1 : update_frame e busy fuel k buffer with
    | none => simp [update_and_display_frame, h1] at h
    | some p1 =>
      obtain ⟨tr1, k1, e1⟩ := p1
      cases h2 : display_frame e1 busy fuel k1 with
      | none => simp [update_and_display_frame, h1, h2] at h
      | some p2 =>
        obtain ⟨tr2, k2, e2⟩ := p2
        simp [update_and_display_frame, h1, h2] at h
        rw [background_color, background_color, h.2.2.symm,
          hdisp e1 busy fuel k1 tr2 k2 e2 h2,
          hupd e busy fuel k buffer tr1 k1 e1 h1]
  · intro e busy fuel k tr k' e' h
    cases hw : wait_until_idle busy fuel k with
    | none => simp [clear_frame, hw] at h
    | some p =>
      obtain ⟨w, k1⟩ := p
      simp [clear_frame, hw] at h
      rw [background_color, background_color, h.2.2.symm]

/-- Witness for C10: construction with an immediately idle transport yields
the white background; `set_background_color` then stores what it is given, and
`update_frame` and `clear_frame` preserve the stored chromatic color. -/
theorem background_color_frame_witness :
    background_color { color := TriColor.White } = TriColor.White ∧
    background_color
      (set_background_color { color := TriColor.White } TriColor.Chromatic) =
      TriColor.Chromatic ∧
    background_color { color := TriColor.Chromatic } =
      background_color { color := TriColor.Chromatic } :=
  ⟨background_color_frame.1 (fun _ => false) 1 0
      [Event.reset 2,
       Event.cmd Command.PowerSetting, Event.data [0x07, 0x07, 0x3F, 0x3F],
       Event.cmd Command.PowerOn,
       Event.cmd Command.PanelSetting, Event.data [0x0F],
       Event.cmd Command.TconResolution, Event.data [0x03, 0x20, 0x01, 0xE0],
       Event.cmd Command.DualSpi, Event.data [0x00],
       Event.cmd Command.VcomAndDataIntervalSetting, Event.data [0x11, 0x07],
       Event.cmd Command.TconSetting, Event.data [0x22],
       Event.cmd Command.GateSourceStart,
       Event.data [0x00, 0x00, 0x00, 0x00]] 1
      { color := TriColor.White } (by decide),
   background_color_frame.2.1 { color := TriColor.White } TriColor.Chromatic,
   background_color_frame.2.2.2.2.2.1 { color := TriColor.Chromatic }
      (fun _ => false) 1 0 [0xAB]
      [Event.cmd Command.DataStartTransmissionBlackWhite, Event.data [0xAB],
       Event.cmd Command.DataStartTransmissionChromatic,
       Event.dataRepeat 0x00 (WIDTH * HEIGHT / 8)] 2
      { color := TriColor.Chromatic } (by decide)⟩

end Epd7in5bc
